import Mathlib

/-!
Verification of the football-modelling notebooks.

Part 1 embeds the shot-geometry and xG functions of
`nbs/course_notebooks/01_building_xg_model.ipynb`; part 2 embeds the
Poisson match-outcome simulator of
`nbs/course_notebooks/04_randomness_and_prediction_of_matches.ipynb`.
Python floats are modelled as real numbers; `numpy` scalar functions
(`np.sqrt`, `np.arctan`, `np.exp`) as the corresponding functions on ℝ.
-/

/-- Embedding of `transform_coordinates_for_computation`: rescales the
0–100 normalised pitch coordinates into metric distances from the goal
line (`m_x = 100 - x`, scaled by 105/100) and from the goal centre
(`c = |y - 50|`, scaled by 65/100). -/
noncomputable def transform_coordinates_for_computation (x y : ℝ) : ℝ × ℝ :=
  ((100 - x) * 105 / 100, |y - 50| * 65 / 100)

/-- Embedding of `compute_shot_distance`: Euclidean distance of the
transformed coordinates from the goal centre. -/
noncomputable def compute_shot_distance (x y : ℝ) : ℝ :=
  let t_x := (transform_coordinates_for_computation x y).1
  let t_y := (transform_coordinates_for_computation x y).2
  Real.sqrt (t_x ^ 2 + t_y ^ 2)

/-- Embedding of `compute_shot_angle`: the arctangent of
`7.32·t_x / (t_x² + t_y² − (7.32/2)²)` over the transformed coordinates,
with π added when the arctangent is negative. -/
noncomputable def compute_shot_angle (x y : ℝ) : ℝ :=
  let t_x := (transform_coordinates_for_computation x y).1
  let t_y := (transform_coordinates_for_computation x y).2
  let angle := Real.arctan ((7.32 * t_x) / (t_x ^ 2 + t_y ^ 2 - (7.32 / 2) ^ 2))
  if angle < 0 then Real.pi + angle else angle

/-- Parameter record of the fitted logistic model, the pickled
`pd.Series` indexed by "Intercept", "dist" and "angle". -/
structure ModelParams where
  Intercept : ℝ
  dist : ℝ
  angle : ℝ

/-- Embedding of `compute_xg`: the logistic transform of the linear sum
of the fitted coefficients applied to shot distance and angle. -/
noncomputable def compute_xg (xc yc : ℝ) (model_params : ModelParams) : ℝ :=
  let shot_dist := compute_shot_distance xc yc
  let shot_ang := compute_shot_angle xc yc
  let linear_sum := model_params.Intercept + shot_dist * model_params.dist
    + shot_ang * model_params.angle
  1 / (1 + Real.exp (-1 * linear_sum))

/-- One row of the `epl` result table: home side, away side and the two
full-time goal counts. -/
structure MatchRecord where
  HomeTeam : String
  AwayTeam : String
  HomeGoals : ℕ
  AwayGoals : ℕ

/-- One row of the fitting table `goal_model_data`: scoring side,
opposing side, goals scored by the scoring side, and the 0/1
home indicator. -/
structure ScoringRow where
  team : String
  opponent : String
  goals : ℕ
  home : ℕ

/-- Embedding of the `goal_model_data` construction: the concatenation
of one home-perspective row per match and one away-perspective row per
match. -/
def goal_model_data (epl : List MatchRecord) : List ScoringRow :=
  (epl.map fun mr => ScoringRow.mk mr.HomeTeam mr.AwayTeam mr.HomeGoals 1) ++
    (epl.map fun mr => ScoringRow.mk mr.AwayTeam mr.HomeTeam mr.AwayGoals 0)

/-- Modelled from the spec: the fitted `statsmodels` Poisson regression
(`smf.glm(formula="goals ~ home + team + opponent",
family=sm.families.Poisson()).fit()`) is library code, not part of the
repository source; the spec describes the fit result as a regression
with an exponential (log) link over an intercept, a home-indicator
coefficient and one coefficient per team and per opponent category. -/
structure PoissonModel where
  intercept : ℝ
  home_coef : ℝ
  team_coef : String → ℝ
  opp_coef : String → ℝ

/-- Modelled from the spec: `goal_model.predict` on a single synthetic
row evaluates the fitted model by taking the exponential of the linear
predictor (the spec's exponential link). -/
noncomputable def PoissonModel.predict (gm : PoissonModel) (team opponent : String)
    (home : ℝ) : ℝ :=
  Real.exp (gm.intercept + gm.home_coef * home + gm.team_coef team + gm.opp_coef opponent)

/-- Embedding of `poisson.pmf(i, team_mean)` by the spec's closed form
`P(k; λ) = λᵏ·e^(−λ)/k!`, the value scipy computes. -/
noncomputable def poisson_pmf (i : ℕ) (team_mean : ℝ) : ℝ :=
  team_mean ^ i * Real.exp (-team_mean) / (Nat.factorial i : ℝ)

/-- Embedding of `np.outer` on two vectors: the matrix of pairwise
products, as a list of rows. -/
noncomputable def np_outer (u v : List ℝ) : List (List ℝ) :=
  u.map fun ui => v.map fun vj => ui * vj

/-- Embedding of `simulate_matches`: predict the two scoring rates,
build the Poisson probability vector over `0..max_goals` for each side,
and return the outer product of the two vectors. -/
noncomputable def simulate_matches (goal_model : PoissonModel)
    (home_side away_side : String) (max_goals : ℕ) : List (List ℝ) :=
  let mean_home_goals := goal_model.predict home_side away_side 1
  let mean_away_goals := goal_model.predict away_side home_side 0
  let simulated_goals := [mean_home_goals, mean_away_goals].map fun team_mean =>
    (List.range (max_goals + 1)).map fun i => poisson_pmf i team_mean
  np_outer (simulated_goals.getD 0 []) (simulated_goals.getD 1 [])

/-- Modelled from the spec: the fit result together with the team and
opponent categories present in the fitting data. The repository source
relies on implicit library behaviour for unseen categories; the spec
requires an explicit unseen-category error, so the category lists are
carried alongside the coefficients. -/
structure FittedScoringModel extends PoissonModel where
  teams : List String
  opponents : List String

/-- Modelled from the spec: `predict_rate` surfaces an explicit
unseen-category error when `team` or `opponent` was absent from the
fitting data, and otherwise evaluates the fitted model. -/
noncomputable def predict_rate (gm : FittedScoringModel) (team opponent : String)
    (home : ℝ) : Except String ℝ :=
  if team ∉ gm.teams then Except.error ("unknown category: " ++ team)
  else if opponent ∉ gm.opponents then Except.error ("unknown category: " ++ opponent)
  else Except.ok (gm.toPoissonModel.predict team opponent home)

/-- Demonstration model used to instantiate the scoreline-matrix claims:
its predicted rate is 2 for "Man City" at home to "Arsenal" and 1 for
"Arsenal" away at "Man City". -/
noncomputable def demo_model : PoissonModel where
  intercept := 0
  home_coef := 0
  team_coef := fun t => if t = "Man City" then Real.log 2 else 0
  opp_coef := fun _ => 0

/-- Demonstration fitted model with explicit category lists, used to
instantiate the unseen-category claim. -/
noncomputable def demo_fit_model : FittedScoringModel where
  intercept := 0
  home_coef := 0
  team_coef := fun _ => 0
  opp_coef := fun _ => 0
  teams := ["Arsenal", "Man City"]
  opponents := ["Arsenal", "Man City"]

/-- Helper: the arctangent of a positive real is positive. -/
lemma arctan_pos_of_pos {z : ℝ} (hz : 0 < z) : 0 < Real.arctan z := by
  have h := Real.arctan_strictMono hz
  rwa [Real.arctan_zero] at h

/-- Helper: the branch expression of `compute_shot_angle` lies in (0, π)
whenever the goal-line offset `m` is positive and the arctangent
denominator does not vanish. -/
lemma shot_angle_branch_bounds (m c : ℝ) (hm : 0 < m)
    (hD : m ^ 2 + c ^ 2 - (7.32 / 2) ^ 2 ≠ 0) :
    0 < (if Real.arctan ((7.32 * m) / (m ^ 2 + c ^ 2 - (7.32 / 2) ^ 2)) < 0 then
          Real.pi + Real.arctan ((7.32 * m) / (m ^ 2 + c ^ 2 - (7.32 / 2) ^ 2))
        else Real.arctan ((7.32 * m) / (m ^ 2 + c ^ 2 - (7.32 / 2) ^ 2))) ∧
      (if Real.arctan ((7.32 * m) / (m ^ 2 + c ^ 2 - (7.32 / 2) ^ 2)) < 0 then
          Real.pi + Real.arctan ((7.32 * m) / (m ^ 2 + c ^ 2 - (7.32 / 2) ^ 2))
        else Real.arctan ((7.32 * m) / (m ^ 2 + c ^ 2 - (7.32 / 2) ^ 2))) < Real.pi := by
  set D := m ^ 2 + c ^ 2 - (7.32 / 2) ^ 2 with hDdef
  set a := Real.arctan ((7.32 * m) / D) with hadef
  have hnum : 0 < 7.32 * m := by nlinarith
  have hlow : -(Real.pi / 2) < a := Real.neg_pi_div_two_lt_arctan _
  have hhigh : a < Real.pi / 2 := Real.arctan_lt_pi_div_two _
  rcases hD.lt_or_lt with hDneg | hDpos
  · have harg : (7.32 * m) / D < 0 := div_neg_of_pos_of_neg hnum hDneg
    have ha : a < 0 := by
      have h := Real.arctan_strictMono harg
      rwa [Real.arctan_zero] at h
    rw [if_pos ha]
    exact ⟨by linarith [Real.pi_pos], by linarith⟩
  · have harg : 0 < (7.32 * m) / D := div_pos hnum hDpos
    have ha : 0 < a := arctan_pos_of_pos harg
    rw [if_neg (not_lt.mpr ha.le)]
    exact ⟨ha, by linarith [Real.pi_pos]⟩

/-- Helper: the coordinate transformation at the shot location (90, 50). -/
lemma transform_at_90_50 : transform_coordinates_for_computation 90 50 = (21 / 2, 0) := by
  unfold transform_coordinates_for_computation
  norm_num

/-- Helper: the shot distance at (90, 50) is exactly 10.5 metres. -/
lemma shot_distance_at_90_50 : compute_shot_distance 90 50 = 21 / 2 := by
  simp only [compute_shot_distance, transform_at_90_50]
  have h : ((21:ℝ) / 2) ^ 2 + (0:ℝ) ^ 2 = ((21:ℝ) / 2) ^ 2 := by norm_num
  rw [h, Real.sqrt_sq (by norm_num : (0:ℝ) ≤ 21 / 2)]

/-- Helper: the shot angle at (90, 50) is the arctangent of
76.86 / 96.8544, the positive branch of the formula. -/
lemma shot_angle_at_90_50 :
    compute_shot_angle 90 50 = Real.arctan (76.86 / 96.8544) := by
  simp only [compute_shot_angle, transform_at_90_50]
  have harg : (7.32 * ((21:ℝ) / 2)) / (((21:ℝ) / 2) ^ 2 + (0:ℝ) ^ 2 - (7.32 / 2) ^ 2) =
      76.86 / 96.8544 := by norm_num
  rw [harg, if_neg (not_lt.mpr (arctan_pos_of_pos (by norm_num)).le)]

/-- Helper: `simulate_matches` unfolded to the outer product of the two
Poisson probability vectors. -/
lemma simulate_matches_eq (gm : PoissonModel) (h_side a_side : String) (mg : ℕ) :
    simulate_matches gm h_side a_side mg =
      np_outer
        ((List.range (mg + 1)).map fun i => poisson_pmf i (gm.predict h_side a_side 1))
        ((List.range (mg + 1)).map fun j => poisson_pmf j (gm.predict a_side h_side 0)) :=
  rfl

/-- Helper: indexing a mapped range with `getD` below the length. -/
lemma getD_map_range {β : Type} (f : ℕ → β) (n i : ℕ) (d : β) (hi : i < n) :
    ((List.range n).map f).getD i d = f i := by
  rw [List.getD_eq_getElem?_getD, List.getElem?_map, List.getElem?_range hi]
  rfl

/-- Helper: the (i, j) cell of the simulated scoreline matrix is the
product of the two Poisson probabilities. -/
lemma simulate_matches_cell (gm : PoissonModel) (h_side a_side : String) (mg i j : ℕ)
    (hi : i < mg + 1) (hj : j < mg + 1) :
    ((simulate_matches gm h_side a_side mg).getD i []).getD j 0 =
      poisson_pmf i (gm.predict h_side a_side 1) *
        poisson_pmf j (gm.predict a_side h_side 0) := by
  rw [simulate_matches_eq]
  unfold np_outer
  rw [List.map_map]
  rw [getD_map_range _ _ _ _ hi]
  simp only [Function.comp]
  rw [List.map_map]
  rw [getD_map_range _ _ _ _ hj]
  simp only [Function.comp]

/-- Helper: the sum of a function mapped over `List.range` as a
`Finset.range` sum. -/
lemma list_range_map_sum (f : ℕ → ℝ) (n : ℕ) :
    ((List.range n).map f).sum = ∑ k ∈ Finset.range n, f k := by
  induction n with
  | zero => simp
  | succ n ih =>
    rw [List.range_succ]
    simp [ih, Finset.sum_range_succ]

/-- Helper: the Poisson probability mass is non-negative for a
non-negative rate. -/
lemma poisson_pmf_nonneg (i : ℕ) {mu : ℝ} (hmu : 0 ≤ mu) : 0 ≤ poisson_pmf i mu := by
  unfold poisson_pmf
  apply div_nonneg
  · exact mul_nonneg (pow_nonneg hmu i) (Real.exp_pos _).le
  · exact Nat.cast_nonneg _

/-- Helper: the truncated Poisson probability vector sums to at most 1. -/
lemma poisson_pmf_trunc_sum_le_one (n : ℕ) {mu : ℝ} (hmu : 0 ≤ mu) :
    ((List.range n).map fun i => poisson_pmf i mu).sum ≤ 1 := by
  rw [list_range_map_sum]
  simp only [poisson_pmf]
  have h : ∑ k ∈ Finset.range n, mu ^ k * Real.exp (-mu) / (Nat.factorial k : ℝ) =
      Real.exp (-mu) * ∑ k ∈ Finset.range n, mu ^ k / (Nat.factorial k : ℝ) := by
    rw [Finset.mul_sum]
    apply Finset.sum_congr rfl
    intro k _
    ring
  rw [h]
  calc Real.exp (-mu) * ∑ k ∈ Finset.range n, mu ^ k / (Nat.factorial k : ℝ) ≤
      Real.exp (-mu) * Real.exp mu :=
        mul_le_mul_of_nonneg_left (Real.sum_le_exp_of_nonneg hmu n) (Real.exp_pos _).le
    _ = 1 := by rw [← Real.exp_add]; simp

/-- Helper: sum of a list after multiplying every element on the left. -/
lemma list_sum_map_mul_left (a : ℝ) (l : List ℝ) :
    (l.map fun x => a * x).sum = a * l.sum := by
  induction l with
  | nil => simp
  | cons x t ih => simp [ih, mul_add]

/-- Helper: the total mass of an outer-product matrix factorises into
the product of the two vector sums. -/
lemma np_outer_total_sum (u v : List ℝ) :
    ((np_outer u v).map List.sum).sum = u.sum * v.sum := by
  unfold np_outer
  induction u with
  | nil => simp
  | cons x t ih =>
    simp only [List.map_cons, List.sum_cons, ih, list_sum_map_mul_left]
    ring

/-- Helper: decimal bounds on e³ derived from the nine-digit bounds on e. -/
lemma exp_three_bounds : (20.07:ℝ) < Real.exp 3 ∧ Real.exp 3 < 20.086 := by
  have h3 : Real.exp 3 = Real.exp 1 ^ 3 := by
    rw [← Real.exp_nat_mul]
    norm_num
  constructor
  · rw [h3]
    calc (20.07:ℝ) < 2.7182818283 ^ 3 := by norm_num
      _ < Real.exp 1 ^ 3 := pow_lt_pow_left₀ Real.exp_one_gt_d9 (by norm_num) (by norm_num)
  · rw [h3]
    calc Real.exp 1 ^ 3 < 2.7182818286 ^ 3 :=
        pow_lt_pow_left₀ Real.exp_one_lt_d9 (Real.exp_pos 1).le (by norm_num)
      _ < 20.086 := by norm_num

/-- Helper: 2·e⁻³ is within 10⁻⁴ of 0.0996. -/
lemma two_exp_neg_three_close : |2 * Real.exp (-3) - 0.0996| < 1e-4 := by
  obtain ⟨hL, hU⟩ := exp_three_bounds
  have hpos : (0:ℝ) < Real.exp 3 := Real.exp_pos _
  have heq : 2 * Real.exp (-3) = 2 / Real.exp 3 := by
    rw [Real.exp_neg]
    ring
  have hb1 : 2 / Real.exp 3 < 0.0997 := by
    rw [div_lt_iff₀ hpos]
    nlinarith
  have hb2 : (0.0995:ℝ) < 2 / Real.exp 3 := by
    rw [lt_div_iff₀ hpos]
    nlinarith
  rw [heq, abs_lt]
  constructor <;> linarith

/-- Helper: the (2, 1) Poisson product at rates 2 and 1 is 2·e⁻³. -/
lemma poisson_cell_value : poisson_pmf 2 2 * poisson_pmf 1 1 = 2 * Real.exp (-3) := by
  unfold poisson_pmf
  have h2 : ((Nat.factorial 2 : ℕ) : ℝ) = 2 := by norm_num [Nat.factorial]
  have h1 : ((Nat.factorial 1 : ℕ) : ℝ) = 1 := by norm_num [Nat.factorial]
  rw [h2, h1, show ((-3):ℝ) = -2 + -1 by norm_num, Real.exp_add]
  ring

/-- C8: for x, y ∈ [0, 100], `compute_shot_distance` is non-negative and
equals the Euclidean norm of the transformed coordinates
((100−x)·105/100, |y−50|·65/100). -/
theorem C8_shot_distance_nonneg (x y : ℝ) (hx0 : 0 ≤ x) (hx1 : x ≤ 100)
    (hy0 : 0 ≤ y) (hy1 : y ≤ 100) :
    0 ≤ compute_shot_distance x y ∧
      compute_shot_distance x y =
        Real.sqrt (((100 - x) * 105 / 100) ^ 2 + (|y - 50| * 65 / 100) ^ 2) :=
  ⟨Real.sqrt_nonneg _, rfl⟩

/-- Witness for C8 at the in-range shot location (3, 4). -/
theorem C8_shot_distance_nonneg_witness :
    ((0:ℝ) ≤ 3 ∧ (3:ℝ) ≤ 100 ∧ (0:ℝ) ≤ 4 ∧ (4:ℝ) ≤ 100) ∧
      (0 ≤ compute_shot_distance 3 4 ∧
        compute_shot_distance 3 4 =
          Real.sqrt (((100 - (3:ℝ)) * 105 / 100) ^ 2 + (|(4:ℝ) - 50| * 65 / 100) ^ 2)) :=
  ⟨by norm_num,
    C8_shot_distance_nonneg 3 4 (by norm_num) (by norm_num) (by norm_num) (by norm_num)⟩

/-- C2 (amended): for x, y ∈ [0, 100] with x ≠ 100 (so the shot is
strictly in front of the goal line) and with a non-vanishing arctangent
denominator — at a vanishing denominator the source divides by zero —
the computed shot angle lies strictly between 0 and π. -/
theorem C2_shot_angle_range (x y : ℝ) (hx0 : 0 ≤ x) (hx1 : x < 100)
    (hy0 : 0 ≤ y) (hy1 : y ≤ 100)
    (hD : (transform_coordinates_for_computation x y).1 ^ 2 +
        (transform_coordinates_for_computation x y).2 ^ 2 - (7.32 / 2) ^ 2 ≠ 0) :
    0 < compute_shot_angle x y ∧ compute_shot_angle x y < Real.pi := by
  have hm : 0 < (transform_coordinates_for_computation x y).1 := by
    have h100 : 0 < 100 - x := by linarith
    show 0 < (100 - x) * 105 / 100
    positivity
  exact shot_angle_branch_bounds _ _ hm hD

/-- Counterexample to C2 as stated: the in-range input (100, 50) is
mapped by the transformation to (0, 0), the arctangent argument is
0 / (−(7.32/2)²) = 0, and no branch correction fires, so the returned
angle is 0, not strictly positive. -/
theorem C2_counterexample :
    compute_shot_angle 100 50 = 0 ∧
      ¬ (0 < compute_shot_angle 100 50 ∧ compute_shot_angle 100 50 < Real.pi) := by
  have h : compute_shot_angle 100 50 = 0 := by
    unfold compute_shot_angle transform_coordinates_for_computation
    norm_num [Real.arctan_zero]
  refine ⟨h, ?_⟩
  rw [h]
  simp

/-- Witness for C2 at the in-range shot location (90, 50). -/
theorem C2_shot_angle_range_witness :
    ((0:ℝ) ≤ 90 ∧ (90:ℝ) < 100 ∧ (0:ℝ) ≤ 50 ∧ (50:ℝ) ≤ 100 ∧
      (transform_coordinates_for_computation 90 50).1 ^ 2 +
        (transform_coordinates_for_computation 90 50).2 ^ 2 - (7.32 / 2) ^ 2 ≠ 0) ∧
      (0 < compute_shot_angle 90 50 ∧ compute_shot_angle 90 50 < Real.pi) := by
  have hD : (transform_coordinates_for_computation 90 50).1 ^ 2 +
      (transform_coordinates_for_computation 90 50).2 ^ 2 - (7.32 / 2) ^ 2 ≠ 0 := by
    unfold transform_coordinates_for_computation
    norm_num
  exact ⟨⟨by norm_num, by norm_num, by norm_num, by norm_num, hD⟩,
    C2_shot_angle_range 90 50 (by norm_num) (by norm_num) (by norm_num) (by norm_num) hD⟩

/-- Counterexample to C3 as stated: at (90, 50) the computed distance is
10.5 m, a full 5.25 m away from the claimed ≈ 5.25 m, and the computed
angle is below π/4, more than π/4 away from the claimed π/2. -/
theorem C3_counterexample :
    |compute_shot_distance 90 50 - 5.25| = 5.25 ∧
      Real.pi / 4 < |compute_shot_angle 90 50 - Real.pi / 2| := by
  constructor
  · rw [shot_distance_at_90_50]
    norm_num
  · rw [shot_angle_at_90_50]
    have h0 : 0 < Real.arctan (76.86 / 96.8544) := arctan_pos_of_pos (by norm_num)
    have h1 : Real.arctan (76.86 / 96.8544) < Real.pi / 4 := by
      have h := Real.arctan_strictMono (show (76.86:ℝ) / 96.8544 < 1 by norm_num)
      rwa [Real.arctan_one] at h
    have habs : |Real.arctan (76.86 / 96.8544) - Real.pi / 2| =
        Real.pi / 2 - Real.arctan (76.86 / 96.8544) := by
      rw [abs_of_neg (by linarith [Real.pi_pos])]
      ring
    rw [habs]
    linarith

/-- C3 (amended): the shot at (90, 50) yields a distance of exactly
10.5 m and an angle equal to arctan(76.86 / 96.8544) ≈ 0.67 rad, which
lies strictly between 0 and π/4 — not close to π/2. -/
theorem C3_shot_at_90_50 :
    compute_shot_distance 90 50 = 21 / 2 ∧
      compute_shot_angle 90 50 = Real.arctan (76.86 / 96.8544) ∧
      0 < compute_shot_angle 90 50 ∧ compute_shot_angle 90 50 < Real.pi / 4 := by
  refine ⟨shot_distance_at_90_50, shot_angle_at_90_50, ?_, ?_⟩
  · rw [shot_angle_at_90_50]
    exact arctan_pos_of_pos (by norm_num)
  · rw [shot_angle_at_90_50]
    have h := Real.arctan_strictMono (show (76.86:ℝ) / 96.8544 < 1 by norm_num)
    rwa [Real.arctan_one] at h

/-- C10: `compute_shot_angle` is not total on [0, 100] × [0, 100]: at the
in-range input x = 100 − 366/105, y = 50 the transformed coordinates land
exactly on the circle m² + c² = (7.32/2)², the arctangent denominator is
zero while its numerator 7.32·m is not, and the source performs a float
division by zero instead of returning an angle. -/
theorem C10_angle_denominator_vanishes :
    (0:ℝ) ≤ 100 - 366 / 105 ∧ ((100:ℝ) - 366 / 105) ≤ 100 ∧
      7.32 * (transform_coordinates_for_computation (100 - 366 / 105) 50).1 ≠ 0 ∧
      (transform_coordinates_for_computation (100 - 366 / 105) 50).1 ^ 2 +
        (transform_coordinates_for_computation (100 - 366 / 105) 50).2 ^ 2 -
        (7.32 / 2) ^ 2 = 0 := by
  unfold transform_coordinates_for_computation
  norm_num

/-- C4: `compute_xg` equals the logistic sigmoid of the fitted linear
sum and is strictly between 0 and 1 for every coordinate pair and every
parameter record. -/
theorem C4_xg_strictly_between_zero_and_one (xc yc : ℝ) (p : ModelParams) :
    compute_xg xc yc p =
      1 / (1 + Real.exp (-(p.Intercept + compute_shot_distance xc yc * p.dist +
        compute_shot_angle xc yc * p.angle))) ∧
      0 < compute_xg xc yc p ∧ compute_xg xc yc p < 1 := by
  have heq : compute_xg xc yc p =
      1 / (1 + Real.exp (-(p.Intercept + compute_shot_distance xc yc * p.dist +
        compute_shot_angle xc yc * p.angle))) := by
    simp only [compute_xg, neg_one_mul]
  have hE : 0 < Real.exp (-(p.Intercept + compute_shot_distance xc yc * p.dist +
      compute_shot_angle xc yc * p.angle)) := Real.exp_pos _
  refine ⟨heq, ?_, ?_⟩
  · rw [heq]
    positivity
  · rw [heq, div_lt_one (by linarith)]
    linarith

/-- C6: every rate predicted by the fitted Poisson scoring model is
strictly positive, because the prediction is the exponential of the
linear predictor. -/
theorem C6_predicted_rate_positive (gm : PoissonModel) (team opponent : String)
    (home : ℝ) :
    0 < gm.predict team opponent home :=
  Real.exp_pos _

/-- C7: the training-row construction emits exactly two rows per
historical match — the home-perspective row (team, opponent, home goals,
home = 1) and the away-perspective row (opponent, team, away goals,
home = 0) — so it is a permutation of two rows per match and has twice
as many rows as there are matches. -/
theorem C7_two_rows_per_match (epl : List MatchRecord) :
    (goal_model_data epl).length = 2 * epl.length ∧
      (goal_model_data epl).Perm
        ((epl.map fun mr =>
            [ScoringRow.mk mr.HomeTeam mr.AwayTeam mr.HomeGoals 1,
             ScoringRow.mk mr.AwayTeam mr.HomeTeam mr.AwayGoals 0]).flatten) := by
  constructor
  · simp only [goal_model_data, List.length_append, List.length_map]
    omega
  · induction epl with
    | nil => simp [goal_model_data]
    | cons mr t ih =>
      have key : goal_model_data (mr :: t) =
          ScoringRow.mk mr.HomeTeam mr.AwayTeam mr.HomeGoals 1 ::
            ((t.map fun m => ScoringRow.mk m.HomeTeam m.AwayTeam m.HomeGoals 1) ++
              (ScoringRow.mk mr.AwayTeam mr.HomeTeam mr.AwayGoals 0 ::
                (t.map fun m => ScoringRow.mk m.AwayTeam m.HomeTeam m.AwayGoals 0))) := rfl
      rw [key, List.map_cons, List.flatten_cons]
      refine List.Perm.cons _ ?_
      refine List.Perm.trans List.perm_middle ?_
      exact List.Perm.cons _ ih

/-- C1: every cell (i, j) of the simulated scoreline matrix is the
product of the Poisson probability of the home side scoring i at rate
λ_home = predict(home, away, 1) and of the away side scoring j at rate
λ_away = predict(away, home, 0); the matrix is (max_goals+1) ×
(max_goals+1); and at λ_home = 2, λ_away = 1 the (2, 1) cell is within
10⁻⁴ of 0.0996. -/
theorem C1_scoreline_matrix_cells (gm : PoissonModel) (home_side away_side : String)
    (max_goals i j : ℕ) (hi : i ≤ max_goals) (hj : j ≤ max_goals) :
    (((simulate_matches gm home_side away_side max_goals).getD i []).getD j 0 =
        poisson_pmf i (gm.predict home_side away_side 1) *
          poisson_pmf j (gm.predict away_side home_side 0)) ∧
      (simulate_matches gm home_side away_side max_goals).length = max_goals + 1 ∧
      (∀ row ∈ simulate_matches gm home_side away_side max_goals,
        row.length = max_goals + 1) ∧
      (gm.predict home_side away_side 1 = 2 → gm.predict away_side home_side 0 = 1 →
        i = 2 → j = 1 →
        |(((simulate_matches gm home_side away_side max_goals).getD i []).getD j 0) -
          0.0996| < 1e-4) := by
  have hcell := simulate_matches_cell gm home_side away_side max_goals i j
    (Nat.lt_succ_of_le hi) (Nat.lt_succ_of_le hj)
  refine ⟨hcell, ?_, ?_, ?_⟩
  · rw [simulate_matches_eq]
    unfold np_outer
    simp
  · intro row hrow
    rw [simulate_matches_eq] at hrow
    unfold np_outer at hrow
    rcases List.mem_map.mp hrow with ⟨ui, _, rfl⟩
    simp
  · intro hH hA hi2 hj1
    subst hi2
    subst hj1
    rw [hcell, hH, hA, poisson_cell_value]
    exact two_exp_neg_three_close

/-- Witness for C1 at the demonstration model with λ_home = 2,
λ_away = 1, max_goals = 5, cell (2, 1). -/
theorem C1_scoreline_matrix_cells_witness :
    ((2:ℕ) ≤ 5 ∧ (1:ℕ) ≤ 5) ∧
      ((((simulate_matches demo_model "Man City" "Arsenal" 5).getD 2 []).getD 1 0 =
          poisson_pmf 2 (demo_model.predict "Man City" "Arsenal" 1) *
            poisson_pmf 1 (demo_model.predict "Arsenal" "Man City" 0)) ∧
        (simulate_matches demo_model "Man City" "Arsenal" 5).length = 5 + 1 ∧
        (∀ row ∈ simulate_matches demo_model "Man City" "Arsenal" 5,
          row.length = 5 + 1) ∧
        (demo_model.predict "Man City" "Arsenal" 1 = 2 →
          demo_model.predict "Arsenal" "Man City" 0 = 1 → (2:ℕ) = 2 → (1:ℕ) = 1 →
          |(((simulate_matches demo_model "Man City" "Arsenal" 5).getD 2 []).getD 1 0) -
            0.0996| < 1e-4)) :=
  ⟨⟨by norm_num, by norm_num⟩,
    C1_scoreline_matrix_cells demo_model "Man City" "Arsenal" 5 2 1
      (by norm_num) (by norm_num)⟩

/-- C5: both predicted rates are strictly positive, every cell of the
scoreline matrix is non-negative, the total mass of the truncated matrix
is at most 1, and the (0, 0) cell is exactly
e^(−λ_home) · e^(−λ_away). -/
theorem C5_matrix_mass_invariants (gm : PoissonModel) (h_side a_side : String)
    (max_goals : ℕ) :
    0 < gm.predict h_side a_side 1 ∧ 0 < gm.predict a_side h_side 0 ∧
      (∀ row ∈ simulate_matches gm h_side a_side max_goals, ∀ c ∈ row, 0 ≤ c) ∧
      ((simulate_matches gm h_side a_side max_goals).map List.sum).sum ≤ 1 ∧
      ((simulate_matches gm h_side a_side max_goals).getD 0 []).getD 0 0 =
        Real.exp (-(gm.predict h_side a_side 1)) *
          Real.exp (-(gm.predict a_side h_side 0)) := by
  have hH : (0:ℝ) < gm.predict h_side a_side 1 := Real.exp_pos _
  have hA : (0:ℝ) < gm.predict a_side h_side 0 := Real.exp_pos _
  refine ⟨hH, hA, ?_, ?_, ?_⟩
  · intro row hrow c hc
    rw [simulate_matches_eq] at hrow
    unfold np_outer at hrow
    rcases List.mem_map.mp hrow with ⟨ui, hui, rfl⟩
    rcases List.mem_map.mp hc with ⟨vj, hvj, rfl⟩
    rcases List.mem_map.mp hui with ⟨i, _, rfl⟩
    rcases List.mem_map.mp hvj with ⟨j, _, rfl⟩
    exact mul_nonneg (poisson_pmf_nonneg i hH.le) (poisson_pmf_nonneg j hA.le)
  · rw [simulate_matches_eq, np_outer_total_sum]
    have h1 := poisson_pmf_trunc_sum_le_one (max_goals + 1) hH.le
    have h2 := poisson_pmf_trunc_sum_le_one (max_goals + 1) hA.le
    have h2n : 0 ≤ ((List.range (max_goals + 1)).map fun j =>
        poisson_pmf j (gm.predict a_side h_side 0)).sum := by
      apply List.sum_nonneg
      intro x hx
      rcases List.mem_map.mp hx with ⟨j, _, rfl⟩
      exact poisson_pmf_nonneg j hA.le
    exact mul_le_one₀ h1 h2n h2
  · rw [simulate_matches_cell gm h_side a_side max_goals 0 0 (Nat.succ_pos _)
      (Nat.succ_pos _)]
    unfold poisson_pmf
    norm_num [Nat.factorial]

/-- C9: requesting a rate for a team or opponent absent from the fitting
data surfaces an explicit unseen-category error and never returns a
defaulted rate. -/
theorem C9_unseen_category_error (gm : FittedScoringModel) (team opponent : String)
    (home : ℝ) (h : team ∉ gm.teams ∨ opponent ∉ gm.opponents) :
    (∃ msg, predict_rate gm team opponent home = Except.error msg) ∧
      ∀ r : ℝ, predict_rate gm team opponent home ≠ Except.ok r := by
  have herr : ∃ msg, predict_rate gm team opponent home = Except.error msg := by
    unfold predict_rate
    rcases h with h1 | h2
    · exact ⟨_, if_pos h1⟩
    · by_cases h1 : team ∉ gm.teams
      · exact ⟨_, if_pos h1⟩
      · rw [if_neg h1, if_pos h2]
        exact ⟨_, rfl⟩
  refine ⟨herr, ?_⟩
  rcases herr with ⟨msg, hmsg⟩
  intro r
  rw [hmsg]
  intro hcontra
  exact Except.noConfusion hcontra

/-- Witness for C9: querying the unseen team "Chelsea" against the
demonstration fitted model. -/
theorem C9_unseen_category_error_witness :
    ("Chelsea" ∉ demo_fit_model.teams ∨ "Chelsea" ∉ demo_fit_model.opponents) ∧
      ((∃ msg, predict_rate demo_fit_model "Chelsea" "Arsenal" 1 = Except.error msg) ∧
        ∀ r : ℝ, predict_rate demo_fit_model "Chelsea" "Arsenal" 1 ≠ Except.ok r) :=
  ⟨Or.inl (by simp [demo_fit_model]),
    C9_unseen_category_error demo_fit_model "Chelsea" "Arsenal" 1
      (Or.inl (by simp [demo_fit_model]))⟩
